import Mathlib

/-!
Verification of the FabricDistort perspective-warp engine.

The development shallowly embeds the geometry and state-handling code of
`src/photo.js` (the `fabric.Photo` subclass) and `src/main.js` (the
`fabric.Image.filters.Perspective` WebGL filter).  JavaScript numbers are
modelled as rationals, in-place array mutation as functional update (with an
explicit heap where aliasing itself is the property under study), and the
external `verb-nurbs-web` tessellator as a uniform-grid sampling of the
bilinear four-point patch that `NurbsSurface.byCorners` constructs.
-/

namespace FabricDistort

/-- A 2D coordinate, one `[x, y]` entry of the JS `number[][]` arrays. -/
structure Coord where
  x : ℚ
  y : ℚ
deriving DecidableEq, Repr

/-- `fabric.util.array.min(l) || 0`: minimum of the list, `0` on the empty
list (where fabric returns `undefined`, coerced by `|| 0`). -/
def minD (l : List ℚ) : ℚ :=
  match l with
  | [] => 0
  | a :: t => t.foldl min a

/-- `fabric.util.array.max(l) || 0`: maximum of the list, `0` on the empty
list. -/
def maxD (l : List ℚ) : ℚ :=
  match l with
  | [] => 0
  | a :: t => t.foldl max a

/-- The x components of a coordinate list. -/
def coordXs (cs : List Coord) : List ℚ := cs.map Coord.x

/-- The y components of a coordinate list. -/
def coordYs (cs : List Coord) : List ℚ := cs.map Coord.y

/-- Result record of `Photo._calcDimensions`. -/
structure Dimensions where
  left : ℚ
  top : ℚ
  width : ℚ
  height : ℚ
deriving DecidableEq, Repr

/-- `Photo._calcDimensions` (src/photo.js): divides every control point by
`fabric.devicePixelRatio` (the `dpr` parameter), then returns the minima as
`left`/`top` and the absolute max−min differences as `width`/`height`. -/
def _calcDimensions (dpr : ℚ) (perspectiveCoords : List Coord) : Dimensions :=
  let coords := perspectiveCoords.map (fun c => Coord.mk (c.x / dpr) (c.y / dpr))
  let minX := minD (coordXs coords)
  let minY := minD (coordYs coords)
  let maxX := maxD (coordXs coords)
  let maxY := maxD (coordYs coords)
  { left := minX, top := minY, width := |maxX - minX|, height := |maxY - minY| }

/-- The mutable state of a `fabric.Photo` that the perspective code touches:
the control points, the object's width/height, and `pathOffset`. -/
structure PhotoState where
  perspectiveCoords : List Coord
  width : ℚ
  height : ℚ
  pathOffset : Coord
deriving DecidableEq, Repr

/-- `Photo._setPositionDimensions` (src/photo.js): recomputes the dimensions
from the control points and stores them into `width`, `height` and
`pathOffset`. -/
def _setPositionDimensions (dpr : ℚ) (s : PhotoState) : PhotoState :=
  let d := _calcDimensions dpr s.perspectiveCoords
  { s with width := d.width, height := d.height, pathOffset := ⟨d.left, d.top⟩ }

/-- `Photo._applyPointsOffset` (src/photo.js): subtracts `pathOffset` from
every control point in place. -/
def _applyPointsOffset (s : PhotoState) : PhotoState :=
  { s with perspectiveCoords :=
      s.perspectiveCoords.map (fun c => ⟨c.x - s.pathOffset.x, c.y - s.pathOffset.y⟩) }

/-- `Photo._resetSizeAndPosition` (src/photo.js): `_setPositionDimensions`
followed, when `apply` is true (the JS default), by `_applyPointsOffset`. -/
def _resetSizeAndPosition (dpr : ℚ) (s : PhotoState) (apply : Bool) : PhotoState :=
  let s1 := _setPositionDimensions dpr s
  if apply then _applyPointsOffset s1 else s1

/-- The bounds-recompute-and-offset-normalize sequence that runs when a drag
ends: `_resetSizeAndPosition()` with its default `apply = true`. -/
def endDrag (dpr : ℚ) (s : PhotoState) : PhotoState :=
  _resetSizeAndPosition dpr s true

/-- The `bounds` record of the Perspective filter (src/main.js). -/
structure Bounds where
  width : ℚ
  height : ℚ
  minX : ℚ
  maxX : ℚ
  minY : ℚ
  maxY : ℚ
deriving DecidableEq, Repr

/-- The field initializer of `bounds` in the Perspective filter class. -/
def initialBounds : Bounds := ⟨0, 0, 0, 0, 0, 0⟩

/-- The instance state of a `fabric.Image.filters.Perspective` filter. -/
structure FilterState where
  pixelRatio : ℚ
  bounds : Bounds
  hasRelativeCoordinates : Bool
  perspectiveCoords : List Coord
deriving DecidableEq, Repr

/-- `Perspective.applyPixelRatio` (src/main.js): multiplies both components
of every coordinate by the filter's pixel ratio, in place. -/
def applyPixelRatio (ratio : ℚ) (coords : List Coord) : List Coord :=
  coords.map (fun c => ⟨c.x * ratio, c.y * ratio⟩)

/-- The options bag passed to the Perspective constructor. -/
structure PerspectiveOptions where
  hasRelativeCoordinates : Bool
  pixelRatio : ℚ
  perspectiveCoords : List Coord
deriving DecidableEq, Repr

/-- The Perspective constructor (src/main.js): field initializers run, then
`setOptions(options)` copies the option fields, then `applyPixelRatio()`
rescales the (shared) coordinate array by the filter's pixel ratio. -/
def mkPerspective (o : PerspectiveOptions) : FilterState :=
  let s0 : FilterState :=
    { pixelRatio := o.pixelRatio
      bounds := initialBounds
      hasRelativeCoordinates := o.hasRelativeCoordinates
      perspectiveCoords := o.perspectiveCoords }
  { s0 with perspectiveCoords := applyPixelRatio s0.pixelRatio s0.perspectiveCoords }

/-- `Photo.getInitialPerspective` (src/photo.js): seeds the four image
corners, hands the same array to a freshly constructed Perspective filter
(whose constructor rescales it by the device pixel ratio), and ends with
that array as the photo's `perspectiveCoords`. -/
def getInitialPerspective (w h dpr : ℚ) : List Coord :=
  let perspectiveCoords : List Coord := [⟨0, 0⟩, ⟨w, 0⟩, ⟨w, h⟩, ⟨0, h⟩]
  (mkPerspective ⟨false, dpr, perspectiveCoords⟩).perspectiveCoords

/-- `Perspective.getPerspectiveBounds(coords)` (src/main.js): the `coords`
parameter (default `this.perspectiveCoords`) is immediately overwritten by a
copy of `this.perspectiveCoords`, so the argument is dead; the minima and
maxima are stored into `this.bounds` and also returned. -/
def getPerspectiveBounds (s : FilterState) (coordsArg : Option (List Coord)) :
    Bounds × FilterState :=
  let _deadParameter := coordsArg.getD s.perspectiveCoords
  let coords := s.perspectiveCoords
  let minX := minD (coordXs coords)
  let minY := minD (coordYs coords)
  let maxX := maxD (coordXs coords)
  let maxY := maxD (coordYs coords)
  let b : Bounds :=
    { width := |maxX - minX|, height := |maxY - minY|
      minX := minX, maxX := maxX, minY := minY, maxY := maxY }
  (b, { s with bounds := b })

/-- `Perspective.calculateCoordsByCorners` (src/main.js): subtracts the
stored `bounds.minX`/`bounds.minY` from every coordinate in place. -/
def calculateCoordsByCorners (s : FilterState) : FilterState :=
  { s with perspectiveCoords :=
      s.perspectiveCoords.map (fun c => ⟨c.x - s.bounds.minX, c.y - s.bounds.minY⟩) }

/-- Point of the bilinear four-point patch that the external
`verb.geom.NurbsSurface.byCorners(p0, p1, p2, p3)` constructs, evaluated at
surface parameters `(u, v)`; the four corners are interpolated so that
`(0,0) ↦ p0`, `(1,0) ↦ p1`, `(1,1) ↦ p2`, `(0,1) ↦ p3`. -/
def surfacePoint (p0 p1 p2 p3 : Coord) (u v : ℚ) : Coord :=
  ⟨(1 - u) * (1 - v) * p0.x + u * (1 - v) * p1.x + u * v * p2.x + (1 - u) * v * p3.x,
   (1 - u) * (1 - v) * p0.y + u * (1 - v) * p1.y + u * v * p2.y + (1 - u) * v * p3.y⟩

/-- A tessellation result as produced by verb's `surface.tessellate()`:
vertex positions, triangle index triples, and per-vertex UV pairs. -/
structure Tess where
  points : List Coord
  faces : List (ℕ × ℕ × ℕ)
  uvs : List (ℚ × ℚ)
deriving DecidableEq, Repr

/-- The UV parameters of grid vertex `k` in an `n × n` uniform tessellation
(`n + 1` samples per axis, row-major). -/
def gridUV (n k : ℕ) : ℚ × ℚ :=
  ((((k % (n + 1) : ℕ) : ℚ) / (n : ℚ)), (((k / (n + 1) : ℕ) : ℚ) / (n : ℚ)))

/-- Triangle `t` of the uniform grid: cell `t / 2` split into two triangles. -/
def gridFace (n t : ℕ) : ℕ × ℕ × ℕ :=
  let q := t / 2
  let i := q / n
  let j := q % n
  let a := i * (n + 1) + j
  if t % 2 = 0 then (a, a + 1, a + (n + 1)) else (a + 1, a + (n + 1) + 1, a + (n + 1))

/-- Model of verb's `surface.tessellate()` on the bilinear four-point patch:
a deterministic uniform `n × n` grid of parameter samples, each cell split
into two triangles, every vertex carrying its `(u, v)` pair as UV. -/
def tessellate (n : ℕ) (p0 p1 p2 p3 : Coord) : Tess :=
  { points := (List.range ((n + 1) * (n + 1))).map
      (fun k => surfacePoint p0 p1 p2 p3 (gridUV n k).1 (gridUV n k).2)
    faces := (List.range (2 * n * n)).map (fun t => gridFace n t)
    uvs := (List.range ((n + 1) * (n + 1))).map (fun k => gridUV n k) }

/-- `Perspective.generateSurface` (src/main.js): spreads
`this.perspectiveCoords` into `NurbsSurface.byCorners` with **no validation
of any kind** and returns the tessellation.  The repository defines no error
value: four corners — degenerate or not — always yield a mesh; only a
coordinate list that is not four points makes the external verb call itself
break down (modelled as `none`).  The grid density `n` is the tessellation
parameter of the external-library model. -/
def generateSurface (n : ℕ) (s : FilterState) : Option Tess :=
  match s.perspectiveCoords with
  | [c0, c1, c2, c3] => some (tessellate n c0 c1 c2 c3)
  | _ => none

/-- The observable outcome of `Perspective.applyTo`:
`rendered b` — the WebGL branch ran, sizing the destination from bounds `b`;
`skipped` — `options.webgl` was false, the whole body was skipped silently;
`backendUnavailable` — the `RenderBackendUnavailable` failure the spec
  describes; the code contains no path producing it. -/
inductive RenderOutcome where
  | rendered : Bounds → RenderOutcome
  | skipped : RenderOutcome
  | backendUnavailable : RenderOutcome
deriving DecidableEq, Repr

/-- `Perspective.applyTo(options)` (src/main.js): when `options.webgl` is
true, computes the perspective bounds (sizing the destination canvas from
them), translates the coordinates when `hasRelativeCoordinates`, and renders;
when `options.webgl` is false, the guard `if (options.webgl)` makes the call
do nothing at all. -/
def applyTo (s : FilterState) (webgl : Bool) : RenderOutcome × FilterState :=
  if webgl then
    let p := getPerspectiveBounds s none
    let s2 := if p.2.hasRelativeCoordinates then calculateCoordsByCorners p.2 else p.2
    (RenderOutcome.rendered p.1, s2)
  else
    (RenderOutcome.skipped, s)

/-- One perspective drag control, as built by `Photo.togglePerspective`
(src/photo.js): named `prs(i+1)`, anchored at the previous point (wrapping),
handling the point at `pointIndex`. -/
structure Control where
  ctrlName : String
  anchorIndex : ℕ
  pointIndex : ℕ
deriving DecidableEq, Repr

/-- The control table `togglePerspective(true)` builds: exactly one control
per entry of `perspectiveCoords`, in order. -/
def perspectiveControls (coords : List Coord) : List Control :=
  let lastControl := coords.length - 1
  (List.range coords.length).map (fun index =>
    { ctrlName := "prs" ++ toString (index + 1)
      anchorIndex := if index > 0 then index - 1 else lastControl
      pointIndex := index })

/-- Outcome of a drag-begin request at a control-point index:
`dragging i` — the control exists and its action handler takes over point `i`;
`ignored` — no control exists for that index, nothing happens;
`invalidControlPoint` — the `InvalidControlPoint` failure the spec describes;
  the code contains no validation producing it. -/
inductive DragBegin where
  | dragging : ℕ → DragBegin
  | ignored : DragBegin
  | invalidControlPoint : DragBegin
deriving DecidableEq, Repr

/-- A drag-begin request at index `i`: looks up the control built for that
index.  `togglePerspective` created controls only for existing coordinates,
and `_actionWrapper` performs no index validation, so an index without a
control is silently ignored. -/
def beginDrag (coords : List Coord) (i : ℕ) : DragBegin :=
  match (perspectiveControls coords)[i]? with
  | some c => DragBegin.dragging c.pointIndex
  | none => DragBegin.ignored

/-- A reference to a JS array on the heap. -/
structure Ref where
  addr : ℕ
deriving DecidableEq, Repr

/-- A heap of coordinate arrays, with an allocation counter. -/
structure Heap where
  mem : ℕ → List Coord
  next : ℕ

/-- Dereference an array. -/
def Heap.read (h : Heap) (r : Ref) : List Coord := h.mem r.addr

/-- Overwrite an array in place. -/
def Heap.write (h : Heap) (r : Ref) (v : List Coord) : Heap :=
  ⟨fun a => if a = r.addr then v else h.mem a, h.next⟩

/-- Allocate a fresh array. -/
def Heap.alloc (h : Heap) (v : List Coord) : Ref × Heap :=
  (⟨h.next⟩, ⟨fun a => if a = h.next then v else h.mem a, h.next + 1⟩)

/-- The fields of a Perspective filter that matter for aliasing: the pixel
ratio and the *reference* to the shared coordinate array. -/
structure FilterObj where
  pixelRatio : ℚ
  coordsRef : Ref
deriving DecidableEq, Repr

/-- The Photo's side of the aliasing: its reference to the coordinate
array. -/
structure PhotoObj where
  coordsRef : Ref
deriving DecidableEq, Repr

/-- Heap-level model of the Perspective constructor: it keeps the caller's
array reference (`setOptions` copies the reference, not the array) and
rescales that array's contents in place via `applyPixelRatio`. -/
def perspectiveConstructorHeap (ratio : ℚ) (p : Ref) (h : Heap) : FilterObj × Heap :=
  (⟨ratio, p⟩, h.write p (applyPixelRatio ratio (h.read p)))

/-- Heap-level model of `Photo.getInitialPerspective`: allocates the corner
array, stores the reference as the photo's `perspectiveCoords`, and passes
the same reference to the Perspective constructor, which mutates it. -/
def getInitialPerspectiveHeap (w hgt ratio : ℚ) (heap : Heap) :
    PhotoObj × FilterObj × Heap :=
  let (ref, heap1) := heap.alloc [⟨0, 0⟩, ⟨w, 0⟩, ⟨w, hgt⟩, ⟨0, hgt⟩]
  let photo : PhotoObj := ⟨ref⟩
  let (filt, heap2) := perspectiveConstructorHeap ratio ref heap1
  (photo, filt, heap2)

/-! ## Helper lemmas about the fold-based minima and maxima -/

theorem foldl_min_map_sub (l : List ℚ) (a c : ℚ) :
    (l.map (fun t => t - c)).foldl min (a - c) = l.foldl min a - c := by
  induction l generalizing a with
  | nil => rfl
  | cons x t ih =>
      simp only [List.map_cons, List.foldl_cons, min_sub_sub_right]
      exact ih (min a x)

theorem foldl_max_map_sub (l : List ℚ) (a c : ℚ) :
    (l.map (fun t => t - c)).foldl max (a - c) = l.foldl max a - c := by
  induction l generalizing a with
  | nil => rfl
  | cons x t ih =>
      simp only [List.map_cons, List.foldl_cons, max_sub_sub_right]
      exact ih (max a x)

theorem minD_map_sub (a : ℚ) (t : List ℚ) (c : ℚ) :
    minD ((a :: t).map (fun x => x - c)) = minD (a :: t) - c := by
  simp only [List.map_cons, minD]
  exact foldl_min_map_sub t a c

theorem maxD_map_sub (a : ℚ) (t : List ℚ) (c : ℚ) :
    maxD ((a :: t).map (fun x => x - c)) = maxD (a :: t) - c := by
  simp only [List.map_cons, maxD]
  exact foldl_max_map_sub t a c

theorem foldl_min_le_foldl_max (t : List ℚ) (a b : ℚ) (h : a ≤ b) :
    t.foldl min a ≤ t.foldl max b := by
  induction t generalizing a b with
  | nil => exact h
  | cons x xs ih =>
      exact ih _ _ (le_trans (min_le_left a x) (le_trans h (le_max_left b x)))

theorem minD_le_maxD (l : List ℚ) : minD l ≤ maxD l := by
  cases l with
  | nil => exact le_refl 0
  | cons a t => exact foldl_min_le_foldl_max t a a (le_refl a)

theorem coordXs_map_offset (cs : List Coord) (a b : ℚ) :
    coordXs (cs.map fun c => (⟨c.x - a, c.y - b⟩ : Coord)) =
      (coordXs cs).map (fun t => t - a) := by
  simp only [coordXs, List.map_map]
  rfl

theorem coordYs_map_offset (cs : List Coord) (a b : ℚ) :
    coordYs (cs.map fun c => (⟨c.x - a, c.y - b⟩ : Coord)) =
      (coordYs cs).map (fun t => t - b) := by
  simp only [coordYs, List.map_map]
  rfl

theorem map_div_one (cs : List Coord) :
    cs.map (fun c => Coord.mk (c.x / 1) (c.y / 1)) = cs := by
  have h : (fun c : Coord => Coord.mk (c.x / 1) (c.y / 1)) = fun c => c := by
    funext c
    simp
  rw [h]
  exact List.map_id' cs

theorem _calcDimensions_one (cs : List Coord) :
    _calcDimensions 1 cs =
      { left := minD (coordXs cs), top := minD (coordYs cs),
        width := |maxD (coordXs cs) - minD (coordXs cs)|,
        height := |maxD (coordYs cs) - minD (coordYs cs)| } := by
  unfold _calcDimensions
  rw [map_div_one]

theorem endDrag_one (p : PhotoState) :
    endDrag 1 p =
      { perspectiveCoords := p.perspectiveCoords.map
          (fun c => ⟨c.x - minD (coordXs p.perspectiveCoords),
                     c.y - minD (coordYs p.perspectiveCoords)⟩)
        width := |maxD (coordXs p.perspectiveCoords) - minD (coordXs p.perspectiveCoords)|
        height := |maxD (coordYs p.perspectiveCoords) - minD (coordYs p.perspectiveCoords)|
        pathOffset := ⟨minD (coordXs p.perspectiveCoords), minD (coordYs p.perspectiveCoords)⟩ } := by
  simp only [endDrag, _resetSizeAndPosition, _setPositionDimensions, _applyPointsOffset,
    _calcDimensions_one, if_pos]

theorem map_offset_zero (cs : List Coord) :
    (cs.map fun c => (⟨c.x - 0, c.y - 0⟩ : Coord)) = cs := by
  have h : (fun c : Coord => (⟨c.x - 0, c.y - 0⟩ : Coord)) = fun c => c := by
    funext c
    simp
  rw [h]
  exact List.map_id' cs

/-- After subtracting the coordinate-wise minima from a nonempty point set,
the new minima are exactly `0` and the absolute max−min differences are
unchanged on both axes. -/
theorem normalized_min_width (cs : List Coord) (hcs : cs ≠ []) :
    minD (coordXs (cs.map fun c =>
        (⟨c.x - minD (coordXs cs), c.y - minD (coordYs cs)⟩ : Coord))) = 0 ∧
    minD (coordYs (cs.map fun c =>
        (⟨c.x - minD (coordXs cs), c.y - minD (coordYs cs)⟩ : Coord))) = 0 ∧
    |maxD (coordXs (cs.map fun c =>
        (⟨c.x - minD (coordXs cs), c.y - minD (coordYs cs)⟩ : Coord))) -
      minD (coordXs (cs.map fun c =>
        (⟨c.x - minD (coordXs cs), c.y - minD (coordYs cs)⟩ : Coord)))| =
      |maxD (coordXs cs) - minD (coordXs cs)| ∧
    |maxD (coordYs (cs.map fun c =>
        (⟨c.x - minD (coordXs cs), c.y - minD (coordYs cs)⟩ : Coord))) -
      minD (coordYs (cs.map fun c =>
        (⟨c.x - minD (coordXs cs), c.y - minD (coordYs cs)⟩ : Coord)))| =
      |maxD (coordYs cs) - minD (coordYs cs)| := by
  obtain ⟨a, t, rfl⟩ := List.exists_cons_of_ne_nil hcs
  have hx : coordXs (a :: t) = a.x :: coordXs t := rfl
  have hy : coordYs (a :: t) = a.y :: coordYs t := rfl
  rw [coordXs_map_offset, coordYs_map_offset, hx, hy, minD_map_sub, minD_map_sub,
    maxD_map_sub, maxD_map_sub]
  refine ⟨sub_self _, sub_self _, ?_, ?_⟩
  · rw [sub_sub_sub_cancel_right]
  · rw [sub_sub_sub_cancel_right]

/-! ## Claim theorems -/

/-- Claim C2 (confirmed): for every loaded image with scaled width `w` and
scaled height `h`, `getInitialPerspective` produces exactly the four corners
`[(0,0), (w,0), (w,h), (0,h)]` in that order, expressed in device-pixel-ratio
scaled units (every component multiplied by `dpr` by the Perspective
constructor acting on the shared array). -/
theorem getInitialPerspective_seeds_scaled_corners (w h dpr : ℚ) :
    getInitialPerspective w h dpr =
      [⟨0, 0⟩, ⟨w * dpr, 0⟩, ⟨w * dpr, h * dpr⟩, ⟨0, h * dpr⟩] := by
  simp [getInitialPerspective, mkPerspective, applyPixelRatio]

/-- Claim C8 (confirmed): the width and height computed by
`_calcDimensions` and by `getPerspectiveBounds` are always nonnegative, each
being the absolute value of the difference between the maximum and minimum
coordinate on its axis — and since the maximum is never below the minimum,
the absolute value is the plain difference. -/
theorem bounds_width_height_nonneg (dpr : ℚ) (cs : List Coord) (s : FilterState) :
    0 ≤ (_calcDimensions dpr cs).width ∧ 0 ≤ (_calcDimensions dpr cs).height ∧
    (_calcDimensions dpr cs).width =
      |maxD (coordXs (cs.map fun c => Coord.mk (c.x / dpr) (c.y / dpr))) -
        minD (coordXs (cs.map fun c => Coord.mk (c.x / dpr) (c.y / dpr)))| ∧
    (_calcDimensions dpr cs).height =
      |maxD (coordYs (cs.map fun c => Coord.mk (c.x / dpr) (c.y / dpr))) -
        minD (coordYs (cs.map fun c => Coord.mk (c.x / dpr) (c.y / dpr)))| ∧
    0 ≤ (getPerspectiveBounds s none).1.width ∧
    0 ≤ (getPerspectiveBounds s none).1.height ∧
    (getPerspectiveBounds s none).1.width =
      (getPerspectiveBounds s none).1.maxX - (getPerspectiveBounds s none).1.minX ∧
    (getPerspectiveBounds s none).1.height =
      (getPerspectiveBounds s none).1.maxY - (getPerspectiveBounds s none).1.minY := by
  refine ⟨abs_nonneg _, abs_nonneg _, rfl, rfl, abs_nonneg _, abs_nonneg _, ?_, ?_⟩
  · exact abs_of_nonneg (sub_nonneg.mpr (minD_le_maxD _))
  · exact abs_of_nonneg (sub_nonneg.mpr (minD_le_maxD _))

/-- Claim C9 (confirmed): the Perspective constructor keeps the caller's
coordinate array reference and multiplies both components of every entry by
the pixel ratio in place; because `getInitialPerspective` hands the photo's
own array to the constructor, the photo's `perspectiveCoords` read back
scaled after construction. -/
theorem perspective_ctor_scales_shared_array (P : List Coord) (ratio w hgt : ℚ)
    (heap : Heap) (p : Ref) :
    ((perspectiveConstructorHeap ratio p (heap.write p P)).2).read p =
      P.map (fun c => ⟨c.x * ratio, c.y * ratio⟩) ∧
    ((perspectiveConstructorHeap ratio p (heap.write p P)).1).coordsRef = p ∧
    (getInitialPerspectiveHeap w hgt ratio heap).1.coordsRef =
      (getInitialPerspectiveHeap w hgt ratio heap).2.1.coordsRef ∧
    ((getInitialPerspectiveHeap w hgt ratio heap).2.2).read
        (getInitialPerspectiveHeap w hgt ratio heap).1.coordsRef =
      [⟨0, 0⟩, ⟨w * ratio, 0⟩, ⟨w * ratio, hgt * ratio⟩, ⟨0, hgt * ratio⟩] := by
  refine ⟨?_, rfl, rfl, ?_⟩
  · simp [perspectiveConstructorHeap, Heap.read, Heap.write, applyPixelRatio]
  · simp [getInitialPerspectiveHeap, perspectiveConstructorHeap, Heap.read, Heap.write,
      Heap.alloc, applyPixelRatio]

/-- Claim C10 (confirmed): `getPerspectiveBounds` ignores its `coords`
argument — the parameter is reassigned from `this.perspectiveCoords` before
any use — so any argument yields the same result as no argument, and the
returned bounds are also stored into `this.bounds`. -/
theorem getPerspectiveBounds_ignores_argument (s : FilterState) (c : List Coord) :
    getPerspectiveBounds s (some c) = getPerspectiveBounds s none ∧
    ((getPerspectiveBounds s (some c)).2).bounds = (getPerspectiveBounds s (some c)).1 :=
  ⟨rfl, rfl⟩

/-- Claim C7 (corrected, amended): when the WebGL backend is unavailable
(`options.webgl` false) `applyTo` silently does nothing — the state is
untouched and no error of any kind is produced; the code has no
`RenderBackendUnavailable` path at all. -/
theorem applyTo_skips_silently_without_webgl (s : FilterState) (w : Bool) :
    applyTo s false = (RenderOutcome.skipped, s) ∧
    (applyTo s w).1 ≠ RenderOutcome.backendUnavailable := by
  refine ⟨rfl, ?_⟩
  cases w <;> simp [applyTo]

/-- Claim C7 counterexample: at a concrete filter state with WebGL
unavailable, `applyTo` yields the silent `skipped` outcome, not the
`RenderBackendUnavailable` failure the claim requires. -/
theorem applyTo_no_webgl_skipped_example :
    (applyTo ⟨1, initialBounds, true, [⟨0, 0⟩, ⟨2, 0⟩, ⟨2, 2⟩, ⟨0, 2⟩]⟩ false).1 =
      RenderOutcome.skipped ∧
    RenderOutcome.skipped ≠ RenderOutcome.backendUnavailable := by
  refine ⟨rfl, ?_⟩
  simp

/-- Claim C4 (confirmed): `generateSurface` is a deterministic function of
the corner coordinates alone — two filter states with identical
`perspectiveCoords` produce identical tessellations: same vertex count, same
index sequence, equal UVs. -/
theorem generateSurface_deterministic (n : ℕ) (s s' : FilterState)
    (hc : s.perspectiveCoords = s'.perspectiveCoords) :
    generateSurface n s = generateSurface n s' ∧
    ∀ t t', generateSurface n s = some t → generateSurface n s' = some t' →
      t.points.length = t'.points.length ∧ t.faces = t'.faces ∧ t.uvs = t'.uvs := by
  have h : generateSurface n s = generateSurface n s' := by
    unfold generateSurface
    rw [hc]
  refine ⟨h, ?_⟩
  intro t t' h1 h2
  rw [h, h2] at h1
  cases h1
  exact ⟨rfl, rfl, rfl⟩

/-- Claim C4 witness: the determinism theorem applied to two concrete filter
states that differ in every field except the corner coordinates. -/
theorem generateSurface_deterministic_witness :
    generateSurface 1 ⟨1, initialBounds, true, [⟨0, 0⟩, ⟨4, 0⟩, ⟨4, 3⟩, ⟨0, 3⟩]⟩ =
      generateSurface 1 ⟨2, ⟨9, 9, 9, 9, 9, 9⟩, false, [⟨0, 0⟩, ⟨4, 0⟩, ⟨4, 3⟩, ⟨0, 3⟩]⟩ ∧
    ∀ t t', generateSurface 1 ⟨1, initialBounds, true, [⟨0, 0⟩, ⟨4, 0⟩, ⟨4, 3⟩, ⟨0, 3⟩]⟩ = some t →
      generateSurface 1 ⟨2, ⟨9, 9, 9, 9, 9, 9⟩, false, [⟨0, 0⟩, ⟨4, 0⟩, ⟨4, 3⟩, ⟨0, 3⟩]⟩ = some t' →
      t.points.length = t'.points.length ∧ t.faces = t'.faces ∧ t.uvs = t'.uvs :=
  generateSurface_deterministic 1
    ⟨1, initialBounds, true, [⟨0, 0⟩, ⟨4, 0⟩, ⟨4, 3⟩, ⟨0, 3⟩]⟩
    ⟨2, ⟨9, 9, 9, 9, 9, 9⟩, false, [⟨0, 0⟩, ⟨4, 0⟩, ⟨4, 3⟩, ⟨0, 3⟩]⟩ rfl

/-- Claim C3 (corrected, amended): `generateSurface` performs no degeneracy
validation whatsoever — any four corners, collinear or coincident included,
produce an ordinary tessellated mesh of the (possibly degenerate) bilinear
patch, with the full grid of vertices and UVs and `2·n·n` triangles; the
code defines no `DegenerateGeometry` error. -/
theorem generateSurface_no_degeneracy_check (n : ℕ) (s : FilterState)
    (c0 c1 c2 c3 : Coord) (h : s.perspectiveCoords = [c0, c1, c2, c3]) :
    ∃ t, generateSurface n s = some t ∧
      t.points.length = (n + 1) * (n + 1) ∧
      t.uvs.length = (n + 1) * (n + 1) ∧
      t.faces.length = 2 * n * n := by
  refine ⟨tessellate n c0 c1 c2 c3, ?_, ?_, ?_, ?_⟩
  · unfold generateSurface
    rw [h]
  · simp [tessellate]
  · simp [tessellate]
  · simp [tessellate]

/-- Claim C3 witness: the no-validation theorem applied at four collinear
corners. -/
theorem generateSurface_no_degeneracy_check_witness :
    ∃ t, generateSurface 1 ⟨1, initialBounds, false, [⟨0, 0⟩, ⟨1, 1⟩, ⟨2, 2⟩, ⟨3, 3⟩]⟩ = some t ∧
      t.points.length = (1 + 1) * (1 + 1) ∧
      t.uvs.length = (1 + 1) * (1 + 1) ∧
      t.faces.length = 2 * 1 * 1 :=
  generateSurface_no_degeneracy_check 1
    ⟨1, initialBounds, false, [⟨0, 0⟩, ⟨1, 1⟩, ⟨2, 2⟩, ⟨3, 3⟩]⟩
    ⟨0, 0⟩ ⟨1, 1⟩ ⟨2, 2⟩ ⟨3, 3⟩ rfl

/-- Claim C3 counterexample: on the four collinear corners
`(0,0), (1,1), (2,2), (3,3)` — zero enclosed area — `generateSurface`
succeeds with a concrete (degenerate but NaN-free) mesh instead of failing
with a `DegenerateGeometry` error. -/
theorem generateSurface_collinear_returns_mesh :
    generateSurface 1 ⟨1, initialBounds, false, [⟨0, 0⟩, ⟨1, 1⟩, ⟨2, 2⟩, ⟨3, 3⟩]⟩ =
      some ⟨[⟨0, 0⟩, ⟨1, 1⟩, ⟨3, 3⟩, ⟨2, 2⟩], [(0, 1, 2), (1, 3, 2)],
        [(0, 0), (1, 0), (0, 1), (1, 1)]⟩ := by
  simp [generateSurface, tessellate, gridUV, gridFace, surfacePoint, List.range_succ]

/-- Claim C6 (corrected, amended): no index validation and no
`InvalidControlPoint` error exist — `togglePerspective` builds exactly one
control per existing control point, so a drag-begin at an in-range index
engages that point while an out-of-range index finds no control and is
silently ignored, with no error surfaced. -/
theorem beginDrag_range_behaviour (coords : List Coord) (i : ℕ) :
    (i < coords.length → beginDrag coords i = DragBegin.dragging i) ∧
    (coords.length ≤ i → beginDrag coords i = DragBegin.ignored) ∧
    beginDrag coords i ≠ DragBegin.invalidControlPoint := by
  refine ⟨?_, ?_, ?_⟩
  · intro h
    simp [beginDrag, perspectiveControls, List.getElem?_map, List.getElem?_range h]
  · intro h
    have hn : (List.range coords.length)[i]? = none := List.getElem?_eq_none (by simpa using h)
    simp [beginDrag, perspectiveControls, List.getElem?_map, hn]
  · by_cases h : i < coords.length
    · simp [beginDrag, perspectiveControls, List.getElem?_map, List.getElem?_range h]
    · have hn : (List.range coords.length)[i]? = none :=
        List.getElem?_eq_none (by simpa using not_lt.mp h)
      simp [beginDrag, perspectiveControls, List.getElem?_map, hn]

/-- Claim C6 witness: the range-behaviour theorem applied to a concrete
four-point set, at the in-range index 2 and the out-of-range index 7. -/
theorem beginDrag_range_behaviour_witness :
    beginDrag [⟨0, 0⟩, ⟨2, 0⟩, ⟨2, 2⟩, ⟨0, 2⟩] 2 = DragBegin.dragging 2 ∧
    beginDrag [⟨0, 0⟩, ⟨2, 0⟩, ⟨2, 2⟩, ⟨0, 2⟩] 7 = DragBegin.ignored ∧
    beginDrag [⟨0, 0⟩, ⟨2, 0⟩, ⟨2, 2⟩, ⟨0, 2⟩] 7 ≠ DragBegin.invalidControlPoint :=
  ⟨(beginDrag_range_behaviour [⟨0, 0⟩, ⟨2, 0⟩, ⟨2, 2⟩, ⟨0, 2⟩] 2).1 (by simp),
   (beginDrag_range_behaviour [⟨0, 0⟩, ⟨2, 0⟩, ⟨2, 2⟩, ⟨0, 2⟩] 7).2.1 (by simp),
   (beginDrag_range_behaviour [⟨0, 0⟩, ⟨2, 0⟩, ⟨2, 2⟩, ⟨0, 2⟩] 7).2.2⟩

/-- Claim C6 counterexample: a drag-begin at index 9 of a four-point set is
silently ignored — it does not fail with the `InvalidControlPoint` error the
claim requires. -/
theorem beginDrag_out_of_range_no_error_example :
    beginDrag [⟨0, 0⟩, ⟨2, 0⟩, ⟨2, 2⟩, ⟨0, 2⟩] 9 = DragBegin.ignored ∧
    DragBegin.ignored ≠ DragBegin.invalidControlPoint := by
  refine ⟨rfl, ?_⟩
  simp

/-- Claim C1 (corrected, amended): recomputing bounds and then normalizing
offsets zeroes the minima and preserves width/height — exactly as claimed
for the filter pair (`getPerspectiveBounds` + `calculateCoordsByCorners`) on
any nonempty point set, and for the Photo pair (`_calcDimensions` +
`_applyPointsOffset` via `_resetSizeAndPosition`) when the device pixel
ratio is 1; with ratio ≠ 1 the Photo pair subtracts a ratio-divided offset
from undivided coordinates and the minimum does not become 0. -/
theorem computeBounds_normalizeOffset_invariance (s : FilterState) (p : PhotoState)
    (hs : s.perspectiveCoords ≠ []) (hp : p.perspectiveCoords ≠ []) :
    (minD (coordXs (calculateCoordsByCorners (getPerspectiveBounds s none).2).perspectiveCoords) = 0 ∧
     minD (coordYs (calculateCoordsByCorners (getPerspectiveBounds s none).2).perspectiveCoords) = 0 ∧
     (getPerspectiveBounds (calculateCoordsByCorners (getPerspectiveBounds s none).2) none).1.width =
       (getPerspectiveBounds s none).1.width ∧
     (getPerspectiveBounds (calculateCoordsByCorners (getPerspectiveBounds s none).2) none).1.height =
       (getPerspectiveBounds s none).1.height) ∧
    (minD (coordXs (endDrag 1 p).perspectiveCoords) = 0 ∧
     minD (coordYs (endDrag 1 p).perspectiveCoords) = 0 ∧
     (_calcDimensions 1 (endDrag 1 p).perspectiveCoords).width =
       (_calcDimensions 1 p.perspectiveCoords).width ∧
     (_calcDimensions 1 (endDrag 1 p).perspectiveCoords).height =
       (_calcDimensions 1 p.perspectiveCoords).height) := by
  obtain ⟨h1, h2, h3, h4⟩ := normalized_min_width s.perspectiveCoords hs
  obtain ⟨g1, g2, g3, g4⟩ := normalized_min_width p.perspectiveCoords hp
  constructor
  · exact ⟨h1, h2, h3, h4⟩
  · rw [endDrag_one, _calcDimensions_one, _calcDimensions_one]
    exact ⟨g1, g2, g3, g4⟩

/-- Claim C1 witness: the invariance theorem applied to a concrete filter
state and photo state, both holding the four-point square
`(1,1), (5,1), (5,4), (1,4)` of nonzero area. -/
theorem computeBounds_normalizeOffset_invariance_witness :
    (minD (coordXs (calculateCoordsByCorners
        (getPerspectiveBounds ⟨1, initialBounds, true, [⟨1, 1⟩, ⟨5, 1⟩, ⟨5, 4⟩, ⟨1, 4⟩]⟩ none).2).perspectiveCoords) = 0 ∧
     minD (coordYs (calculateCoordsByCorners
        (getPerspectiveBounds ⟨1, initialBounds, true, [⟨1, 1⟩, ⟨5, 1⟩, ⟨5, 4⟩, ⟨1, 4⟩]⟩ none).2).perspectiveCoords) = 0 ∧
     (getPerspectiveBounds (calculateCoordsByCorners
        (getPerspectiveBounds ⟨1, initialBounds, true, [⟨1, 1⟩, ⟨5, 1⟩, ⟨5, 4⟩, ⟨1, 4⟩]⟩ none).2) none).1.width =
       (getPerspectiveBounds ⟨1, initialBounds, true, [⟨1, 1⟩, ⟨5, 1⟩, ⟨5, 4⟩, ⟨1, 4⟩]⟩ none).1.width ∧
     (getPerspectiveBounds (calculateCoordsByCorners
        (getPerspectiveBounds ⟨1, initialBounds, true, [⟨1, 1⟩, ⟨5, 1⟩, ⟨5, 4⟩, ⟨1, 4⟩]⟩ none).2) none).1.height =
       (getPerspectiveBounds ⟨1, initialBounds, true, [⟨1, 1⟩, ⟨5, 1⟩, ⟨5, 4⟩, ⟨1, 4⟩]⟩ none).1.height) ∧
    (minD (coordXs (endDrag 1 ⟨[⟨1, 1⟩, ⟨5, 1⟩, ⟨5, 4⟩, ⟨1, 4⟩], 0, 0, ⟨0, 0⟩⟩).perspectiveCoords) = 0 ∧
     minD (coordYs (endDrag 1 ⟨[⟨1, 1⟩, ⟨5, 1⟩, ⟨5, 4⟩, ⟨1, 4⟩], 0, 0, ⟨0, 0⟩⟩).perspectiveCoords) = 0 ∧
     (_calcDimensions 1 (endDrag 1 ⟨[⟨1, 1⟩, ⟨5, 1⟩, ⟨5, 4⟩, ⟨1, 4⟩], 0, 0, ⟨0, 0⟩⟩).perspectiveCoords).width =
       (_calcDimensions 1 ([⟨1, 1⟩, ⟨5, 1⟩, ⟨5, 4⟩, ⟨1, 4⟩] : List Coord)).width ∧
     (_calcDimensions 1 (endDrag 1 ⟨[⟨1, 1⟩, ⟨5, 1⟩, ⟨5, 4⟩, ⟨1, 4⟩], 0, 0, ⟨0, 0⟩⟩).perspectiveCoords).height =
       (_calcDimensions 1 ([⟨1, 1⟩, ⟨5, 1⟩, ⟨5, 4⟩, ⟨1, 4⟩] : List Coord)).height) :=
  computeBounds_normalizeOffset_invariance
    ⟨1, initialBounds, true, [⟨1, 1⟩, ⟨5, 1⟩, ⟨5, 4⟩, ⟨1, 4⟩]⟩
    ⟨[⟨1, 1⟩, ⟨5, 1⟩, ⟨5, 4⟩, ⟨1, 4⟩], 0, 0, ⟨0, 0⟩⟩ (by simp) (by simp)

/-- Claim C1 counterexample: with device pixel ratio 2, the four-point
square `(2,2), (4,2), (4,4), (2,4)` (nonzero area) normalizes to a point set
whose minimum x is 1, not 0: `_setPositionDimensions` computes the offset in
ratio-divided units while `_applyPointsOffset` subtracts it from undivided
coordinates. -/
theorem photo_normalize_min_not_zero_example :
    minD (coordXs (_resetSizeAndPosition 2
        ⟨[⟨2, 2⟩, ⟨4, 2⟩, ⟨4, 4⟩, ⟨2, 4⟩], 0, 0, ⟨0, 0⟩⟩ true).perspectiveCoords) ≠ 0 := by
  simp [_resetSizeAndPosition, _setPositionDimensions, _applyPointsOffset, _calcDimensions,
    coordXs, coordYs, minD, maxD]
  norm_num

/-- Claim C5 (corrected, amended): with device pixel ratio 1, a second
`endDrag` (the `_resetSizeAndPosition` sequence) leaves the control points,
width and height unchanged but overwrites `pathOffset` with the minimum of
the already-normalized points, `(0,0)` — so the second run differs from the
first state exactly in `pathOffset` (and with ratio ≠ 1 even the control
points shift again). -/
theorem endDrag_second_resets_pathOffset (p : PhotoState) (hp : p.perspectiveCoords ≠ []) :
    endDrag 1 (endDrag 1 p) = { endDrag 1 p with pathOffset := ⟨0, 0⟩ } := by
  obtain ⟨g1, g2, g3, g4⟩ := normalized_min_width p.perspectiveCoords hp
  rw [endDrag_one p, endDrag_one]
  simp only []
  rw [g3, g4, g1, g2, map_offset_zero]

/-- Claim C5 witness: the second-run theorem applied to a concrete
four-point state. -/
theorem endDrag_second_resets_pathOffset_witness :
    endDrag 1 (endDrag 1 ⟨[⟨1, 1⟩, ⟨3, 1⟩, ⟨3, 3⟩, ⟨1, 3⟩], 2, 2, ⟨0, 0⟩⟩) =
      { endDrag 1 ⟨[⟨1, 1⟩, ⟨3, 1⟩, ⟨3, 3⟩, ⟨1, 3⟩], 2, 2, ⟨0, 0⟩⟩ with pathOffset := ⟨0, 0⟩ } :=
  endDrag_second_resets_pathOffset ⟨[⟨1, 1⟩, ⟨3, 1⟩, ⟨3, 3⟩, ⟨1, 3⟩], 2, 2, ⟨0, 0⟩⟩ (by simp)

/-- Claim C5 counterexample: starting from `(1,1), (3,1), (3,3), (1,3)` at
device pixel ratio 1, the state after one `endDrag` has
`pathOffset = (1,1)`, and a second `endDrag` changes it to `(0,0)` — the
state is not left unchanged; and at ratio 2 even the control points differ
after the second run. -/
theorem endDrag_twice_changes_state_example :
    endDrag 1 (endDrag 1 ⟨[⟨1, 1⟩, ⟨3, 1⟩, ⟨3, 3⟩, ⟨1, 3⟩], 2, 2, ⟨0, 0⟩⟩) ≠
      endDrag 1 ⟨[⟨1, 1⟩, ⟨3, 1⟩, ⟨3, 3⟩, ⟨1, 3⟩], 2, 2, ⟨0, 0⟩⟩ ∧
    (endDrag 2 (endDrag 2 ⟨[⟨2, 2⟩, ⟨4, 2⟩, ⟨4, 4⟩, ⟨2, 4⟩], 0, 0, ⟨0, 0⟩⟩)).perspectiveCoords ≠
      (endDrag 2 ⟨[⟨2, 2⟩, ⟨4, 2⟩, ⟨4, 4⟩, ⟨2, 4⟩], 0, 0, ⟨0, 0⟩⟩).perspectiveCoords := by
  constructor
  · simp [endDrag, _resetSizeAndPosition, _setPositionDimensions, _applyPointsOffset,
      _calcDimensions, coordXs, coordYs, minD, maxD, PhotoState.mk.injEq, Coord.mk.injEq]
  · simp [endDrag, _resetSizeAndPosition, _setPositionDimensions, _applyPointsOffset,
      _calcDimensions, coordXs, coordYs, minD, maxD, Coord.mk.injEq]
    norm_num

end FabricDistort
